import Mathlib

/-!
Verification model of the Bay Area Opportunity Mapper core.

Shallow embedding of the scoring engine in src/streamlit_app.py
(calculate_final_score) and of the crime-table consolidation in
src/combine_crime_dfs.py (consolidate_county_data).

Modelling conventions:
* A pandas float column entry is modelled as Option ℚ. none models NaN
  (a missing value); IEEE arithmetic propagates NaN through + and *,
  and a comparison with NaN is False, which is mirrored by nanMul,
  nanAdd and budget_filter below.
* numpy round(x, 1) rounds half to even at the first decimal place;
  roundHalfEven and round1 model this exactly over ℚ.
* pandas sort_values(ascending=False) orders rows by descending value
  with NaN rows placed last and is deterministic; ties are modelled in
  the stable order (for the short arrays of the concrete theorems below
  numpy falls back to insertion sort, which is stable).
-/

namespace BayArea

/-- The five apartment sizes of the sidebar bedroom_map; selecting one picks
the rent column RENT_STUDIO .. RENT_4BD and, through the string mapping
norm_rent_col = "norm_" ++ lowercase column name, the matching normalized
rent column. -/
inductive Bedroom
  | studio
  | bd1
  | bd2
  | bd3
  | bd4
deriving DecidableEq

/-- One row of the region GeoDataFrame: the ZIP key, the COUNTY column, the
rent column for each unit size, and the five normalized metric columns read
by calculate_final_score. Geometry and display columns are not read by the
scorer and are omitted. -/
structure RegionRow where
  ZIP : String
  COUNTY : Option String
  rents : Bedroom → Option ℚ
  norm_rents : Bedroom → Option ℚ
  norm_crime_rate_viol : Option ℚ
  norm_crime_rate_prop : Option ℚ
  norm_transit : Option ℚ
  norm_income : Option ℚ

/-- The weights dictionary passed to calculate_final_score, one raw slider
value per criterion. -/
structure Weights where
  rent : ℚ
  safety_viol : ℚ
  safety_prop : ℚ
  transit : ℚ
  income : ℚ

/-- The five scorable criteria (keys of the slider_max dictionary). -/
inductive Criterion
  | rent
  | safety_viol
  | safety_prop
  | transit
  | income
deriving DecidableEq

/-- The slider_max dictionary of calculate_final_score: most sliders are
0-10, transit is 0-3. -/
def slider_max : Criterion → ℚ
  | Criterion.rent => 10
  | Criterion.safety_viol => 10
  | Criterion.safety_prop => 10
  | Criterion.transit => 3
  | Criterion.income => 10

/-- Python conditional expression w / m if m else 0 (truthiness of a number
is m ≠ 0). -/
def rescale (w m : ℚ) : ℚ := if m ≠ 0 then w / m else 0

/-- w_rent of calculate_final_score. -/
def w_rent (weights : Weights) : ℚ := rescale weights.rent (slider_max Criterion.rent)

/-- w_safety_viol of calculate_final_score. -/
def w_safety_viol (weights : Weights) : ℚ :=
  rescale weights.safety_viol (slider_max Criterion.safety_viol)

/-- w_safety_prop of calculate_final_score. -/
def w_safety_prop (weights : Weights) : ℚ :=
  rescale weights.safety_prop (slider_max Criterion.safety_prop)

/-- w_transit of calculate_final_score. -/
def w_transit (weights : Weights) : ℚ := rescale weights.transit (slider_max Criterion.transit)

/-- w_income of calculate_final_score. -/
def w_income (weights : Weights) : ℚ := rescale weights.income (slider_max Criterion.income)

/-- total_weight of calculate_final_score, with the zero denominator
defaulting to 1. -/
def total_weight (weights : Weights) : ℚ :=
  let t := w_rent weights + w_safety_viol weights + w_safety_prop weights +
    w_transit weights + w_income weights
  if t = 0 then 1 else t

/-- Scalar times a float column entry: w * NaN = NaN. -/
def nanMul (w : ℚ) (x : Option ℚ) : Option ℚ := x.map (fun v => w * v)

/-- Sum of two float column entries: NaN + anything = NaN. -/
def nanAdd : Option ℚ → Option ℚ → Option ℚ
  | some x, some y => some (x + y)
  | _, _ => none

/-- Round half to even to an integer, the numpy rounding rule. -/
def roundHalfEven (x : ℚ) : ℤ :=
  if Int.fract x = 1 / 2 then (if 2 ∣ ⌊x⌋ then ⌊x⌋ else ⌊x⌋ + 1) else round x

/-- numpy round(x, 1): round half to even at the first decimal place. -/
def round1 (x : ℚ) : ℚ := (roundHalfEven (x * 10) : ℚ) / 10

/-- The budget filter mask gdf[bedroom_col] <= max_rent * 1.2 of
calculate_final_score, applied to one row. A NaN rent compares as False and
the row is dropped. -/
def budget_filter (max_rent : ℚ) (bedroom_col : Bedroom) (r : RegionRow) : Bool :=
  match r.rents bedroom_col with
  | some v => decide (v ≤ max_rent * (12 / 10))
  | none => false

/-- The weighted sum w_rent * norm_rent + w_safety_viol * norm_crime_rate_viol
+ w_safety_prop * norm_crime_rate_prop + w_transit * norm_transit +
w_income * norm_income of calculate_final_score (Python + associates to the
left; NaN propagates). -/
def scoreNumerator (weights : Weights) (bedroom_col : Bedroom) (r : RegionRow) : Option ℚ :=
  nanAdd (nanAdd (nanAdd (nanAdd
    (nanMul (w_rent weights) (r.norm_rents bedroom_col))
    (nanMul (w_safety_viol weights) r.norm_crime_rate_viol))
    (nanMul (w_safety_prop weights) r.norm_crime_rate_prop))
    (nanMul (w_transit weights) r.norm_transit))
    (nanMul (w_income weights) r.norm_income)

/-- The final_score column of one surviving row: weighted sum divided by
total_weight, then scaled to 100 and rounded to one decimal. -/
def final_score (weights : Weights) (bedroom_col : Bedroom) (r : RegionRow) : Option ℚ :=
  ((scoreNumerator weights bedroom_col r).map (fun s => s / total_weight weights)).map
    (fun s => round1 (s * 100))

/-- Comparison used by sort_values(final_score, ascending=False): descending
on present scores, NaN scores last. -/
def scoreDescB (a b : Option ℚ) : Bool :=
  match a, b with
  | some x, some y => decide (y ≤ x)
  | some _, none => true
  | none, some _ => false
  | none, none => true

/-- The row ordering induced by scoreDescB on (row, final_score) pairs. -/
def rowOrder (p q : RegionRow × Option ℚ) : Prop := scoreDescB p.2 q.2 = true

instance : DecidableRel rowOrder := fun p q =>
  inferInstanceAs (Decidable (scoreDescB p.2 q.2 = true))

/-- sort_values(final_score, ascending=False): stable sort by descending
score, NaN last. -/
def sort_values_desc (l : List (RegionRow × Option ℚ)) : List (RegionRow × Option ℚ) :=
  List.insertionSort rowOrder l

/-- calculate_final_score of src/streamlit_app.py: filter by budget (times
the 1.2 slack), return the empty table when the filtered set is empty, else
attach the final_score column and sort it descending. The source stores the
filtered table in a local filtered_gdf; it is inlined here. -/
def calculate_final_score (gdf : List RegionRow) (max_rent : ℚ) (bedroom_col : Bedroom)
    (weights : Weights) : List (RegionRow × Option ℚ) :=
  if (gdf.filter (budget_filter max_rent bedroom_col)).isEmpty then []
  else
    sort_values_desc ((gdf.filter (budget_filter max_rent bedroom_col)).map
      (fun r => (r, final_score weights bedroom_col r)))

/-! Model of src/combine_crime_dfs.py. A source CSV is a filename plus rows;
a row is its first-column value (later renamed CRIME_CATEGORY) and the
remaining cells. The script tags each file with a COUNTY column derived from
the filename and concatenates all files. File reading and printing are I/O
and outside the model; the early return when no CSV file is found is kept. -/

/-- One row of a county crime CSV: the unnamed first column (renamed to
CRIME_CATEGORY after concatenation) and the remaining cells. -/
structure SrcRow where
  key : String
  cells : List String
deriving DecidableEq

/-- One county crime CSV: its filename and its rows. -/
structure SrcFile where
  filename : String
  rows : List SrcRow
deriving DecidableEq

/-- One row of the combined table: CRIME_CATEGORY, the other cells, and the
COUNTY column added from the filename (None when the split has no second
token, mirroring pandas .str[1] on a short split). -/
structure CombinedRow where
  crime_category : String
  cells : List String
  COUNTY : Option String
deriving DecidableEq

/-- Python str.title restricted to space-separated words: first letter of
each word uppercased, the rest lowercased. -/
def pyTitle (s : String) : String :=
  String.intercalate " " ((s.splitOn " ").map
    (fun w => (w.take 1).toUpper ++ (w.drop 1).toLower))

/-- The COUNTY value combine_crime_dfs.py derives from a filename: strip the
crime_ prefix and the .csv suffix, underscores to spaces, title-case, then
pandas .str.split().str[1] (whitespace split dropping empty fields, second
token, NaN when absent). -/
def county_from_filename (filename : String) : Option String :=
  let stripped := ((filename.replace "crime_" "").replace ".csv" "").replace "_" " "
  (((pyTitle stripped).splitOn " ").filter (fun w => w ≠ ""))[1]?

/-- consolidate_county_data of src/combine_crime_dfs.py: tag every row of
every file with the COUNTY derived from its filename and concatenate all
rows in file order (pd.concat with ignore_index). none models the early
return taken when no CSV file is present; no other validation is performed. -/
def consolidate_county_data (files : List SrcFile) : Option (List CombinedRow) :=
  if files.isEmpty then none
  else
    some ((files.map (fun f =>
      f.rows.map (fun r => CombinedRow.mk r.key r.cells (county_from_filename f.filename)))).flatten)

/-! Basic lemmas about the model. -/

theorem nanMul_none (w : ℚ) : nanMul w none = none := rfl

theorem nanMul_some (w v : ℚ) : nanMul w (some v) = some (w * v) := rfl

theorem nanAdd_none_left (y : Option ℚ) : nanAdd none y = none := by
  cases y <;> rfl

theorem nanAdd_none_right (x : Option ℚ) : nanAdd x none = none := by
  cases x <;> rfl

theorem floor_le_roundHalfEven (x : ℚ) : ⌊x⌋ ≤ roundHalfEven x := by
  unfold roundHalfEven
  split
  · split
    · exact le_refl _
    · exact le_of_lt (lt_add_one _)
  · rw [round_eq]
    exact Int.floor_le_floor (by linarith)

theorem roundHalfEven_le_ceil (x : ℚ) : roundHalfEven x ≤ ⌈x⌉ := by
  unfold roundHalfEven
  split
  · rename_i hf
    have hlt : (⌊x⌋ : ℚ) < x := by
      have hd : x - ⌊x⌋ = 1 / 2 := by rw [Int.self_sub_floor, hf]
      linarith
    have h1 : ⌊x⌋ + 1 ≤ ⌈x⌉ := Int.lt_ceil.mpr hlt
    split
    · omega
    · exact h1
  · rw [round_eq, Int.floor_le_iff]
    have := Int.le_ceil x
    linarith

theorem round1_bounds {x : ℚ} (h0 : 0 ≤ x) (h1 : x ≤ 100) :
    0 ≤ round1 x ∧ round1 x ≤ 100 := by
  have hfl : (0 : ℤ) ≤ ⌊x * 10⌋ := Int.floor_nonneg.mpr (by positivity)
  have hcl : ⌈x * 10⌉ ≤ (1000 : ℤ) := Int.ceil_le.mpr (by push_cast; linarith)
  have hlo : (0 : ℤ) ≤ roundHalfEven (x * 10) := le_trans hfl (floor_le_roundHalfEven _)
  have hhi : roundHalfEven (x * 10) ≤ 1000 := le_trans (roundHalfEven_le_ceil _) hcl
  unfold round1
  constructor
  · exact div_nonneg (by exact_mod_cast hlo) (by norm_num)
  · rw [div_le_iff₀ (by norm_num)]
    calc ((roundHalfEven (x * 10) : ℚ)) ≤ 1000 := by exact_mod_cast hhi
    _ = 100 * 10 := by norm_num

theorem round1_intCast (n : ℤ) : round1 ((n : ℚ)) = n := by
  have h : ((n : ℚ) * 10) = (((n * 10 : ℤ)) : ℚ) := by push_cast; ring
  unfold round1 roundHalfEven
  rw [h, Int.fract_intCast, if_neg (by norm_num), round_intCast]
  push_cast
  ring

instance : IsTotal (RegionRow × Option ℚ) rowOrder :=
  ⟨by
    intro p q
    unfold rowOrder scoreDescB
    rcases hp : p.2 with _ | x <;> rcases hq : q.2 with _ | y <;> simp
    exact le_total y x⟩

instance : IsTrans (RegionRow × Option ℚ) rowOrder :=
  ⟨by
    intro p q r hpq hqr
    unfold rowOrder scoreDescB at *
    rcases hp : p.2 with _ | x <;> rcases hq : q.2 with _ | y <;> rcases hr : r.2 with _ | z <;>
      simp_all
    linarith⟩

theorem mem_calculate_final_score {gdf : List RegionRow} {max_rent : ℚ} {bedroom_col : Bedroom}
    {weights : Weights} {p : RegionRow × Option ℚ}
    (hp : p ∈ calculate_final_score gdf max_rent bedroom_col weights) :
    p.1 ∈ gdf ∧ budget_filter max_rent bedroom_col p.1 = true ∧
      p.2 = final_score weights bedroom_col p.1 := by
  unfold calculate_final_score at hp
  split at hp
  · exact absurd hp (List.not_mem_nil p)
  · unfold sort_values_desc at hp
    rw [(List.perm_insertionSort rowOrder _).mem_iff] at hp
    obtain ⟨r, hr, hre⟩ := List.mem_map.mp hp
    obtain ⟨hrg, hrf⟩ := List.mem_filter.mp hr
    cases hre
    exact ⟨hrg, hrf, rfl⟩

theorem w_rent_eq (w : Weights) : w_rent w = w.rent / 10 := by
  unfold w_rent rescale slider_max
  rw [if_pos (by norm_num)]

theorem w_safety_viol_eq (w : Weights) : w_safety_viol w = w.safety_viol / 10 := by
  unfold w_safety_viol rescale slider_max
  rw [if_pos (by norm_num)]

theorem w_safety_prop_eq (w : Weights) : w_safety_prop w = w.safety_prop / 10 := by
  unfold w_safety_prop rescale slider_max
  rw [if_pos (by norm_num)]

theorem w_transit_eq (w : Weights) : w_transit w = w.transit / 3 := by
  unfold w_transit rescale slider_max
  rw [if_pos (by norm_num)]

theorem w_income_eq (w : Weights) : w_income w = w.income / 10 := by
  unfold w_income rescale slider_max
  rw [if_pos (by norm_num)]

theorem total_weight_eq (w : Weights) : total_weight w =
    if w_rent w + w_safety_viol w + w_safety_prop w + w_transit w + w_income w = 0 then 1
    else w_rent w + w_safety_viol w + w_safety_prop w + w_transit w + w_income w := rfl

theorem scoreNumerator_eq {w : Weights} {b : Bedroom} {r : RegionRow} {x v q t i : ℚ}
    (hx : r.norm_rents b = some x) (hv : r.norm_crime_rate_viol = some v)
    (hp : r.norm_crime_rate_prop = some q) (ht : r.norm_transit = some t)
    (hi : r.norm_income = some i) :
    scoreNumerator w b r =
      some (w_rent w * x + w_safety_viol w * v + w_safety_prop w * q +
        w_transit w * t + w_income w * i) := by
  unfold scoreNumerator
  rw [hx, hv, hp, ht, hi]
  rfl

theorem calculate_final_score_singleton {r : RegionRow} {m : ℚ} {b : Bedroom} {w : Weights}
    (h : budget_filter m b r = true) :
    calculate_final_score [r] m b w = [(r, final_score w b r)] := by
  unfold calculate_final_score
  simp [h, sort_values_desc, List.insertionSort, List.orderedInsert]

/-- All five normalized metric columns of a row are present and lie in [0,1]
for the selected unit size. -/
def NormsIn01 (bedroom_col : Bedroom) (r : RegionRow) : Prop :=
  (∃ x, r.norm_rents bedroom_col = some x ∧ 0 ≤ x ∧ x ≤ 1) ∧
  (∃ x, r.norm_crime_rate_viol = some x ∧ 0 ≤ x ∧ x ≤ 1) ∧
  (∃ x, r.norm_crime_rate_prop = some x ∧ 0 ≤ x ∧ x ≤ 1) ∧
  (∃ x, r.norm_transit = some x ∧ 0 ≤ x ∧ x ≤ 1) ∧
  (∃ x, r.norm_income = some x ∧ 0 ≤ x ∧ x ≤ 1)

/-- Every raw weight is non-negative and within the declared slider range of
its criterion. -/
def ValidWeights (w : Weights) : Prop :=
  (0 ≤ w.rent ∧ w.rent ≤ slider_max Criterion.rent) ∧
  (0 ≤ w.safety_viol ∧ w.safety_viol ≤ slider_max Criterion.safety_viol) ∧
  (0 ≤ w.safety_prop ∧ w.safety_prop ≤ slider_max Criterion.safety_prop) ∧
  (0 ≤ w.transit ∧ w.transit ≤ slider_max Criterion.transit) ∧
  (0 ≤ w.income ∧ w.income ≤ slider_max Criterion.income)

/-- C1: for every region table whose normalized metric columns (the norm rent
of the selected unit size, norm_crime_rate_viol, norm_crime_rate_prop,
norm_transit, norm_income) all lie in [0,1], and every weight vector with
non-negative weights within the declared slider ranges, every composite score
produced by calculate_final_score lies in [0, 100]. -/
theorem C1_composite_score_in_0_100
    (gdf : List RegionRow) (max_rent : ℚ) (bedroom_col : Bedroom) (w : Weights)
    (hn : ∀ r ∈ gdf, NormsIn01 bedroom_col r) (hw : ValidWeights w) :
    ∀ p ∈ calculate_final_score gdf max_rent bedroom_col w,
      ∃ s, p.2 = some s ∧ 0 ≤ s ∧ s ≤ 100 := by
  intro p hp
  obtain ⟨hg, -, hs⟩ := mem_calculate_final_score hp
  obtain ⟨⟨x, hx, hx0, hx1⟩, ⟨v, hv, hv0, hv1⟩, ⟨pr, hpr, hpr0, hpr1⟩,
    ⟨t, ht, ht0, ht1⟩, ⟨i, hi, hi0, hi1⟩⟩ := hn p.1 hg
  obtain ⟨⟨hr0, -⟩, ⟨hsv0, -⟩, ⟨hsp0, -⟩, ⟨htr0, -⟩, ⟨hin0, -⟩⟩ := hw
  unfold final_score at hs
  rw [scoreNumerator_eq hx hv hpr ht hi, Option.map_some', Option.map_some'] at hs
  have hA0 : 0 ≤ w_rent w := by rw [w_rent_eq]; exact div_nonneg hr0 (by norm_num)
  have hB0 : 0 ≤ w_safety_viol w := by rw [w_safety_viol_eq]; exact div_nonneg hsv0 (by norm_num)
  have hC0 : 0 ≤ w_safety_prop w := by rw [w_safety_prop_eq]; exact div_nonneg hsp0 (by norm_num)
  have hD0 : 0 ≤ w_transit w := by rw [w_transit_eq]; exact div_nonneg htr0 (by norm_num)
  have hE0 : 0 ≤ w_income w := by rw [w_income_eq]; exact div_nonneg hin0 (by norm_num)
  set A := w_rent w
  set B := w_safety_viol w
  set C := w_safety_prop w
  set D := w_transit w
  set E := w_income w
  set S := A * x + B * v + C * pr + D * t + E * i with hSdef
  have hS0 : 0 ≤ S := by
    have h1 := mul_nonneg hA0 hx0
    have h2 := mul_nonneg hB0 hv0
    have h3 := mul_nonneg hC0 hpr0
    have h4 := mul_nonneg hD0 ht0
    have h5 := mul_nonneg hE0 hi0
    rw [hSdef]; linarith
  have hSle : S ≤ A + B + C + D + E := by
    have h1 := mul_le_of_le_one_right hA0 hx1
    have h2 := mul_le_of_le_one_right hB0 hv1
    have h3 := mul_le_of_le_one_right hC0 hpr1
    have h4 := mul_le_of_le_one_right hD0 ht1
    have h5 := mul_le_of_le_one_right hE0 hi1
    rw [hSdef]; linarith
  by_cases hz : A + B + C + D + E = 0
  · have hT : total_weight w = 1 := by rw [total_weight_eq]; exact if_pos hz
    have hSz : S = 0 := le_antisymm (hz ▸ hSle) hS0
    rw [hT, hSz] at hs
    have harg : (0 : ℚ) / 1 * 100 = ((0 : ℤ) : ℚ) := by norm_num
    rw [harg, round1_intCast] at hs
    exact ⟨0, by exact_mod_cast hs, le_refl 0, by norm_num⟩
  · have hpos : 0 < A + B + C + D + E := lt_of_le_of_ne (by linarith) (Ne.symm hz)
    have hT : total_weight w = A + B + C + D + E := by rw [total_weight_eq]; exact if_neg hz
    rw [hT] at hs
    have harg0 : 0 ≤ S / (A + B + C + D + E) * 100 :=
      mul_nonneg (div_nonneg hS0 (le_of_lt hpos)) (by norm_num)
    have harg1 : S / (A + B + C + D + E) * 100 ≤ 100 := by
      have hq : S / (A + B + C + D + E) ≤ 1 := (div_le_one hpos).mpr hSle
      linarith
    obtain ⟨hb0, hb1⟩ := round1_bounds harg0 harg1
    exact ⟨_, hs, hb0, hb1⟩

/-- A concrete region row with every metric present: rent 3000 for every unit
size, normalized rent 4/5, every other normalized metric 1/2. -/
def wRowA : RegionRow where
  ZIP := "94110"
  COUNTY := some "San Francisco"
  rents := fun _ => some 3000
  norm_rents := fun _ => some (4 / 5)
  norm_crime_rate_viol := some (1 / 2)
  norm_crime_rate_prop := some (1 / 2)
  norm_transit := some (1 / 2)
  norm_income := some (1 / 2)

/-- The default slider values of the sidebar form. -/
def wDefault : Weights := ⟨5, 8, 7, 2, 3⟩

/-- The all-zero weight vector. -/
def zeroWeights : Weights := ⟨0, 0, 0, 0, 0⟩

theorem budget_filter_wRowA : budget_filter 3500 Bedroom.bd1 wRowA = true := by
  norm_num [budget_filter, wRowA]

theorem round1_zero : round1 0 = 0 := by
  have h := round1_intCast 0
  norm_num at h
  exact h

/-- C1 witness at the concrete row wRowA with the default sidebar weights. -/
theorem C1_composite_score_in_0_100_witness :
    ∃ s, (wRowA, final_score wDefault Bedroom.bd1 wRowA).2 = some s ∧ 0 ≤ s ∧ s ≤ 100 :=
  C1_composite_score_in_0_100 [wRowA] 3500 Bedroom.bd1 wDefault
    (by
      intro r hr
      rw [List.mem_singleton] at hr
      subst hr
      exact ⟨⟨4 / 5, rfl, by norm_num, by norm_num⟩, ⟨1 / 2, rfl, by norm_num, by norm_num⟩,
        ⟨1 / 2, rfl, by norm_num, by norm_num⟩, ⟨1 / 2, rfl, by norm_num, by norm_num⟩,
        ⟨1 / 2, rfl, by norm_num, by norm_num⟩⟩)
    (by norm_num [ValidWeights, wDefault, slider_max])
    (wRowA, final_score wDefault Bedroom.bd1 wRowA)
    (by rw [calculate_final_score_singleton budget_filter_wRowA]; exact List.mem_singleton_self _)

/-- All five normalized metric columns of a row are present (not NaN). -/
def AllNormsPresent (bedroom_col : Bedroom) (r : RegionRow) : Prop :=
  (r.norm_rents bedroom_col).isSome = true ∧ r.norm_crime_rate_viol.isSome = true ∧
  r.norm_crime_rate_prop.isSome = true ∧ r.norm_transit.isSome = true ∧
  r.norm_income.isSome = true

theorem final_score_zero_weights (b : Bedroom) (r : RegionRow) :
    final_score zeroWeights b r = scoreNumerator zeroWeights b r := by
  rcases hx : r.norm_rents b with _ | x <;>
    rcases hv : r.norm_crime_rate_viol with _ | v <;>
    rcases hpr : r.norm_crime_rate_prop with _ | pr <;>
    rcases ht : r.norm_transit with _ | t <;>
    rcases hi : r.norm_income with _ | i <;>
    simp [final_score, scoreNumerator, nanAdd, nanMul, hx, hv, hpr, ht, hi, w_rent_eq,
      w_safety_viol_eq, w_safety_prop_eq, w_transit_eq, w_income_eq, total_weight_eq,
      zeroWeights, round1_zero]

theorem scoreNumerator_zero_weights (b : Bedroom) (r : RegionRow)
    (h : AllNormsPresent b r) : scoreNumerator zeroWeights b r = some 0 := by
  obtain ⟨h1, h2, h3, h4, h5⟩ := h
  obtain ⟨x, hx⟩ := Option.isSome_iff_exists.mp h1
  obtain ⟨v, hv⟩ := Option.isSome_iff_exists.mp h2
  obtain ⟨pr, hpr⟩ := Option.isSome_iff_exists.mp h3
  obtain ⟨t, ht⟩ := Option.isSome_iff_exists.mp h4
  obtain ⟨i, hi⟩ := Option.isSome_iff_exists.mp h5
  rw [scoreNumerator_eq hx hv hpr ht hi]
  norm_num [w_rent_eq, w_safety_viol_eq, w_safety_prop_eq, w_transit_eq, w_income_eq, zeroWeights]

/-- C2: scoring with the all-zero weight vector never divides by zero: the
denominator total_weight defaults to 1, calculate_final_score is total (no
error), and every surviving region receives the un-normalized numerator as
its score, which is 0 whenever its metrics are present. -/
theorem C2_zero_weights_no_division
    (gdf : List RegionRow) (max_rent : ℚ) (bedroom_col : Bedroom) :
    total_weight zeroWeights = 1 ∧
    ∀ p ∈ calculate_final_score gdf max_rent bedroom_col zeroWeights,
      p.2 = scoreNumerator zeroWeights bedroom_col p.1 ∧
      (AllNormsPresent bedroom_col p.1 → p.2 = some 0) := by
  constructor
  · rw [total_weight_eq]
    norm_num [w_rent_eq, w_safety_viol_eq, w_safety_prop_eq, w_transit_eq, w_income_eq,
      zeroWeights]
  · intro p hp
    obtain ⟨-, -, hs⟩ := mem_calculate_final_score hp
    rw [hs, final_score_zero_weights]
    exact ⟨rfl, fun h => scoreNumerator_zero_weights bedroom_col p.1 h⟩

/-- C2 witness at the concrete row wRowA. -/
theorem C2_zero_weights_no_division_witness :
    total_weight zeroWeights = 1 ∧
    (wRowA, final_score zeroWeights Bedroom.bd1 wRowA).2 = some 0 :=
  have h := C2_zero_weights_no_division [wRowA] 3500 Bedroom.bd1
  ⟨h.1,
    (h.2 (wRowA, final_score zeroWeights Bedroom.bd1 wRowA)
        (by rw [calculate_final_score_singleton budget_filter_wRowA]
            exact List.mem_singleton_self _)).2
      ⟨rfl, rfl, rfl, rfl, rfl⟩⟩

/-- C3: the budget filter is monotonic in the budget: holding slack and unit
size fixed, every region passing at the lower budget B₁ < B₂ also passes at
the higher one, so the filtered set at B₁ is a subset of the one at B₂. -/
theorem C3_budget_filter_monotone
    (gdf : List RegionRow) (bedroom_col : Bedroom) (B₁ B₂ : ℚ) (h : B₁ < B₂) :
    ∀ r ∈ gdf.filter (budget_filter B₁ bedroom_col),
      r ∈ gdf.filter (budget_filter B₂ bedroom_col) := by
  intro r hr
  obtain ⟨hg, hf⟩ := List.mem_filter.mp hr
  refine List.mem_filter.mpr ⟨hg, ?_⟩
  rcases hv : r.rents bedroom_col with _ | v
  · rw [budget_filter, hv] at hf
    exact absurd hf (by norm_num)
  · rw [budget_filter, hv] at hf ⊢
    rw [decide_eq_true_eq] at hf ⊢
    linarith

/-- C3 witness: a 3000 rent row passing at budget 3000 also passes at 3500. -/
theorem C3_budget_filter_monotone_witness :
    wRowA ∈ [wRowA].filter (budget_filter 3500 Bedroom.bd1) :=
  C3_budget_filter_monotone [wRowA] Bedroom.bd1 3000 3500 (by norm_num) wRowA
    (List.mem_filter.mpr ⟨List.mem_singleton_self _, by norm_num [budget_filter, wRowA]⟩)

/-- C4: a region with a present rent for the selected unit size passes the
budget filter exactly when that rent is at most budget times the 1.2 slack. -/
theorem C4_filter_threshold (r : RegionRow) (max_rent : ℚ) (bedroom_col : Bedroom) (v : ℚ)
    (h : r.rents bedroom_col = some v) :
    budget_filter max_rent bedroom_col r = true ↔ v ≤ max_rent * (12 / 10) := by
  simp [budget_filter, h]

/-- A concrete region row with rent 4300 for every unit size. -/
def rHigh : RegionRow where
  ZIP := "94999"
  COUNTY := some "Napa"
  rents := fun _ => some 4300
  norm_rents := fun _ => some (1 / 2)
  norm_crime_rate_viol := some (1 / 2)
  norm_crime_rate_prop := some (1 / 2)
  norm_transit := some (1 / 2)
  norm_income := some (1 / 2)

/-- C4 witness: at budget 3500 with slack 1.2, rent 3000 is included
(3000 ≤ 4200) and rent 4300 is excluded (4300 > 4200). -/
theorem C4_filter_threshold_witness :
    ((3000 : ℚ) ≤ 3500 * (12 / 10) ∧ budget_filter 3500 Bedroom.bd1 wRowA = true) ∧
    (¬ ((4300 : ℚ) ≤ 3500 * (12 / 10)) ∧ budget_filter 3500 Bedroom.bd1 rHigh = false) :=
  ⟨⟨by norm_num, (C4_filter_threshold wRowA 3500 Bedroom.bd1 3000 rfl).mpr (by norm_num)⟩,
   ⟨by norm_num,
    Bool.eq_false_iff.mpr (fun hb => by
      have hc := (C4_filter_threshold rHigh 3500 Bedroom.bd1 4300 rfl).mp hb
      norm_num at hc)⟩⟩

/-- C5: when the budget filter yields no region, calculate_final_score
returns the empty ranked list; it does not raise an error or abort. -/
theorem C5_empty_filter_empty_result
    (gdf : List RegionRow) (max_rent : ℚ) (bedroom_col : Bedroom) (w : Weights)
    (h : gdf.filter (budget_filter max_rent bedroom_col) = []) :
    calculate_final_score gdf max_rent bedroom_col w = [] := by
  unfold calculate_final_score
  rw [h]
  rfl

theorem budget_filter_rHigh : budget_filter 3500 Bedroom.bd1 rHigh = false := by
  norm_num [budget_filter, rHigh]

/-- C5 witness: a table whose only row has rent 4300 is emptied by the filter
at budget 3500, and the scorer returns the empty list. -/
theorem C5_empty_filter_empty_result_witness :
    calculate_final_score [rHigh] 3500 Bedroom.bd1 wDefault = [] :=
  C5_empty_filter_empty_result [rHigh] 3500 Bedroom.bd1 wDefault
    (by simp [List.filter_cons, budget_filter_rHigh])

/-- C6 (amended): the output of calculate_final_score is sorted by descending
final_score with NaN scores last (the rowOrder relation); being a pure
function of its inputs, the scorer is deterministic, but ties keep the stable
input row order instead of being re-ordered by region_id. -/
theorem C6_output_sorted_desc (gdf : List RegionRow) (max_rent : ℚ) (bedroom_col : Bedroom)
    (w : Weights) :
    List.Sorted rowOrder (calculate_final_score gdf max_rent bedroom_col w) := by
  unfold calculate_final_score sort_values_desc
  split
  · exact List.sorted_nil
  · exact List.sorted_insertionSort rowOrder _

/-- A row with ZIP 94002, rent 3000 and every normalized metric 1/2. -/
def rX : RegionRow where
  ZIP := "94002"
  COUNTY := some "San Mateo"
  rents := fun _ => some 3000
  norm_rents := fun _ => some (1 / 2)
  norm_crime_rate_viol := some (1 / 2)
  norm_crime_rate_prop := some (1 / 2)
  norm_transit := some (1 / 2)
  norm_income := some (1 / 2)

/-- A row identical to rX except for the smaller ZIP 94001. -/
def rY : RegionRow where
  ZIP := "94001"
  COUNTY := some "San Mateo"
  rents := fun _ => some 3000
  norm_rents := fun _ => some (1 / 2)
  norm_crime_rate_viol := some (1 / 2)
  norm_crime_rate_prop := some (1 / 2)
  norm_transit := some (1 / 2)
  norm_income := some (1 / 2)

theorem round1_fifty : round1 50 = 50 := by
  have h := round1_intCast 50
  norm_num at h
  exact h

theorem final_score_rX : final_score wDefault Bedroom.bd1 rX = some 50 := by
  unfold final_score
  rw [scoreNumerator_eq (x := 1 / 2) (v := 1 / 2) (q := 1 / 2) (t := 1 / 2) (i := 1 / 2)
    rfl rfl rfl rfl rfl]
  rw [Option.map_some', Option.map_some', total_weight_eq]
  norm_num [w_rent_eq, w_safety_viol_eq, w_safety_prop_eq, w_transit_eq, w_income_eq, wDefault]
  exact round1_fifty

theorem final_score_rY : final_score wDefault Bedroom.bd1 rY = some 50 := by
  unfold final_score
  rw [scoreNumerator_eq (x := 1 / 2) (v := 1 / 2) (q := 1 / 2) (t := 1 / 2) (i := 1 / 2)
    rfl rfl rfl rfl rfl]
  rw [Option.map_some', Option.map_some', total_weight_eq]
  norm_num [w_rent_eq, w_safety_viol_eq, w_safety_prop_eq, w_transit_eq, w_income_eq, wDefault]
  exact round1_fifty

/-- C6 counterexample: two regions with identical metrics tie at score 50,
yet the output lists ZIP 94002 before 94001 (the input row order), not in
ascending region_id order, refuting the claimed region_id tie-break. -/
theorem C6_no_region_id_tiebreak :
    ((calculate_final_score [rX, rY] 3500 Bedroom.bd1 wDefault).map (fun p => p.1.ZIP) =
      ["94002", "94001"]) ∧
    ((calculate_final_score [rX, rY] 3500 Bedroom.bd1 wDefault).map (fun p => p.2) =
      [some 50, some 50]) ∧
    (["94002", "94001"] : List String) ≠ ["94001", "94002"] := by
  have hfX : budget_filter 3500 Bedroom.bd1 rX = true := by norm_num [budget_filter, rX]
  have hfY : budget_filter 3500 Bedroom.bd1 rY = true := by norm_num [budget_filter, rY]
  have hout : calculate_final_score [rX, rY] 3500 Bedroom.bd1 wDefault =
      [(rX, some 50), (rY, some 50)] := by
    simp [calculate_final_score, List.filter_cons, hfX, hfY, sort_values_desc,
      List.insertionSort, List.orderedInsert, final_score_rX, final_score_rY, rowOrder,
      scoreDescB]
  rw [hout]
  exact ⟨by simp [rX, rY], by simp, by decide⟩

/-- C7: each raw weight enters the weighted sum divided by its criterion's
declared slider maximum: 10 for rent, violent safety, property safety and
income, and 3 for transit. -/
theorem C7_weight_rescaling (w : Weights) (bedroom_col : Bedroom) (r : RegionRow)
    (x v pr t i : ℚ)
    (hx : r.norm_rents bedroom_col = some x) (hv : r.norm_crime_rate_viol = some v)
    (hp : r.norm_crime_rate_prop = some pr) (ht : r.norm_transit = some t)
    (hi : r.norm_income = some i) :
    scoreNumerator w bedroom_col r =
      some (w.rent / slider_max Criterion.rent * x +
        w.safety_viol / slider_max Criterion.safety_viol * v +
        w.safety_prop / slider_max Criterion.safety_prop * pr +
        w.transit / slider_max Criterion.transit * t +
        w.income / slider_max Criterion.income * i) := by
  rw [scoreNumerator_eq hx hv hp ht hi, w_rent_eq, w_safety_viol_eq, w_safety_prop_eq,
    w_transit_eq, w_income_eq]
  norm_num [slider_max]

/-- Rent weight at its slider maximum 10 (rescaled 1.0), all other weights 0. -/
def wRentOnly : Weights := ⟨10, 0, 0, 0, 0⟩

theorem round1_eighty : round1 80 = 80 := by
  have h := round1_intCast 80
  norm_num at h
  exact h

/-- C7 witness: with rent weight 10 over maximum 10 and every other weight 0,
a region with normalized rent 0.8 has weighted sum 0.8 and composite score
80.0. -/
theorem C7_weight_rescaling_witness :
    scoreNumerator wRentOnly Bedroom.bd1 wRowA = some (4 / 5) ∧
    final_score wRentOnly Bedroom.bd1 wRowA = some 80 := by
  have h := C7_weight_rescaling wRentOnly Bedroom.bd1 wRowA (4 / 5) (1 / 2) (1 / 2) (1 / 2)
    (1 / 2) rfl rfl rfl rfl rfl
  refine ⟨?_, ?_⟩
  · rw [h]
    norm_num [wRentOnly, slider_max]
  · unfold final_score
    rw [h, Option.map_some', Option.map_some', total_weight_eq]
    norm_num [wRentOnly, slider_max, w_rent_eq, w_safety_viol_eq, w_safety_prop_eq,
      w_transit_eq, w_income_eq]
    exact round1_eighty

/-- C8 (amended): consolidate_county_data performs no duplicate detection:
for every non-empty file list it succeeds (no abort) and returns the plain
concatenation of all rows of all files tagged with their county, so its row
count is the sum of the per-file row counts and duplicated rows survive. -/
theorem C8_duplicates_concatenated (files : List SrcFile) (h : files ≠ []) :
    consolidate_county_data files =
      some ((files.map (fun f => f.rows.map (fun r =>
        CombinedRow.mk r.key r.cells (county_from_filename f.filename)))).flatten) ∧
    ((files.map (fun f => f.rows.map (fun r =>
        CombinedRow.mk r.key r.cells (county_from_filename f.filename)))).flatten).length =
      (files.map (fun f => f.rows.length)).sum := by
  have hne : files.isEmpty = false := by
    cases files
    · exact absurd rfl h
    · rfl
  constructor
  · unfold consolidate_county_data
    rw [hne]
    rfl
  · rw [List.length_flatten, List.map_map]
    congr 1
    congr 1
    funext f
    simp [Function.comp]

/-- One crime CSV row duplicated below. -/
def dupRow : SrcRow := ⟨"Violent Crime", ["95"]⟩

/-- A source file contributing the same row twice. -/
def dupFile : SrcFile := ⟨"crime_santa_clara.csv", [dupRow, dupRow]⟩

/-- C8 counterexample: a source with duplicate rows for the same key is not
rejected as a SchemaMismatch: consolidation succeeds and both copies appear
in the combined table. -/
theorem C8_no_duplicate_rejection :
    consolidate_county_data [dupFile] =
      some [CombinedRow.mk "Violent Crime" ["95"] (county_from_filename "crime_santa_clara.csv"),
        CombinedRow.mk "Violent Crime" ["95"] (county_from_filename "crime_santa_clara.csv")] ∧
    consolidate_county_data [dupFile] ≠ none := by
  have hc : consolidate_county_data [dupFile] =
      some [CombinedRow.mk "Violent Crime" ["95"] (county_from_filename "crime_santa_clara.csv"),
        CombinedRow.mk "Violent Crime" ["95"] (county_from_filename "crime_santa_clara.csv")] := by
    unfold consolidate_county_data
    simp [dupFile, dupRow]
  exact ⟨hc, by rw [hc]; simp⟩

/-- C8 witness for the amended theorem at the concrete duplicated file. -/
theorem C8_duplicates_concatenated_witness :
    consolidate_county_data [dupFile] =
      some (([dupFile].map (fun f => f.rows.map (fun r =>
        CombinedRow.mk r.key r.cells (county_from_filename f.filename)))).flatten) ∧
    (([dupFile].map (fun f => f.rows.map (fun r =>
        CombinedRow.mk r.key r.cells (county_from_filename f.filename)))).flatten).length =
      ([dupFile].map (fun f => f.rows.length)).sum :=
  C8_duplicates_concatenated [dupFile] (List.cons_ne_nil dupFile [])

/-- Some normalized metric column of the row is missing (NaN). -/
def MissingAnyNorm (bedroom_col : Bedroom) (r : RegionRow) : Prop :=
  r.norm_rents bedroom_col = none ∨ r.norm_crime_rate_viol = none ∨
  r.norm_crime_rate_prop = none ∨ r.norm_transit = none ∨ r.norm_income = none

theorem scoreNumerator_missing {w : Weights} {b : Bedroom} {r : RegionRow}
    (h : MissingAnyNorm b r) : scoreNumerator w b r = none := by
  unfold scoreNumerator
  rcases h with h | h | h | h | h <;> rw [h] <;>
    simp [nanMul_none, nanAdd_none_left, nanAdd_none_right, nanMul, nanAdd]

/-- C9 (amended): a missing normalized metric propagates through the weighted
sum like NaN: every surviving region with any missing metric receives an
undefined (none) composite score instead of a score over its present metrics
only. -/
theorem C9_missing_metric_propagates
    (gdf : List RegionRow) (max_rent : ℚ) (bedroom_col : Bedroom) (w : Weights) :
    ∀ p ∈ calculate_final_score gdf max_rent bedroom_col w,
      MissingAnyNorm bedroom_col p.1 → p.2 = none := by
  intro p hp hm
  obtain ⟨-, -, hs⟩ := mem_calculate_final_score hp
  rw [hs]
  unfold final_score
  rw [scoreNumerator_missing hm]
  rfl

/-- A surviving row whose norm_transit entry is missing, all other metrics
present. -/
def r9 : RegionRow where
  ZIP := "94107"
  COUNTY := some "San Francisco"
  rents := fun _ => some 3000
  norm_rents := fun _ => some (1 / 2)
  norm_crime_rate_viol := some (1 / 2)
  norm_crime_rate_prop := some (1 / 2)
  norm_transit := none
  norm_income := some (1 / 2)

theorem budget_filter_r9 : budget_filter 3500 Bedroom.bd1 r9 = true := by
  norm_num [budget_filter, r9]

/-- C9 counterexample: a region missing only norm_transit, scored with rent
weight 10 and all other weights 0, gets the undefined score none, not the
score 50.0 computed from its present metrics only as the claim requires. -/
theorem C9_missing_metric_not_skipped :
    ((calculate_final_score [r9] 3500 Bedroom.bd1 wRentOnly).map (fun p => p.2) = [none]) ∧
    ((calculate_final_score [r9] 3500 Bedroom.bd1 wRentOnly).map (fun p => p.2) ≠
      [some 50]) := by
  have hfs : final_score wRentOnly Bedroom.bd1 r9 = none := by
    unfold final_score
    rw [scoreNumerator_missing (Or.inr (Or.inr (Or.inr (Or.inl rfl))))]
    rfl
  have hout : calculate_final_score [r9] 3500 Bedroom.bd1 wRentOnly = [(r9, none)] := by
    rw [calculate_final_score_singleton budget_filter_r9, hfs]
  rw [hout]
  exact ⟨by simp, by simp⟩

/-- C9 witness for the amended theorem at the concrete row r9. -/
theorem C9_missing_metric_propagates_witness :
    (r9, final_score wRentOnly Bedroom.bd1 r9).2 = none :=
  C9_missing_metric_propagates [r9] 3500 Bedroom.bd1 wRentOnly
    (r9, final_score wRentOnly Bedroom.bd1 r9)
    (by rw [calculate_final_score_singleton budget_filter_r9]
        exact List.mem_singleton_self _)
    (Or.inr (Or.inr (Or.inr (Or.inl rfl))))

/-- C10: a region whose rent for the selected unit size is missing fails the
budget filter at every budget and never appears in the scored output. -/
theorem C10_missing_rent_never_scored
    (gdf : List RegionRow) (max_rent : ℚ) (bedroom_col : Bedroom) (w : Weights)
    (r : RegionRow) (h : r.rents bedroom_col = none) :
    budget_filter max_rent bedroom_col r = false ∧
    ∀ p ∈ calculate_final_score gdf max_rent bedroom_col w, p.1 ≠ r := by
  have hb : budget_filter max_rent bedroom_col r = false := by
    unfold budget_filter
    rw [h]
  refine ⟨hb, ?_⟩
  intro p hp he
  obtain ⟨-, hf, -⟩ := mem_calculate_final_score hp
  rw [he, hb] at hf
  exact Bool.false_ne_true hf

/-- A region row with no rent value for any unit size. -/
def rNoRent : RegionRow where
  ZIP := "94601"
  COUNTY := some "Alameda"
  rents := fun _ => none
  norm_rents := fun _ => some (1 / 2)
  norm_crime_rate_viol := some (1 / 2)
  norm_crime_rate_prop := some (1 / 2)
  norm_transit := some (1 / 2)
  norm_income := some (1 / 2)

/-- C10 witness: the concrete row with a missing rent fails the filter at
budget 3500. -/
theorem C10_missing_rent_never_scored_witness :
    budget_filter 3500 Bedroom.bd1 rNoRent = false :=
  (C10_missing_rent_never_scored [rNoRent] 3500 Bedroom.bd1 wDefault rNoRent rfl).1

end BayArea
